import Mathlib

/-!
Verification of the rollup-boost HTTP proxy middleware (`src/proxy.rs`,
wired up in `src/main.rs`).

The middleware is embedded shallowly:

* `Json` / `parseValue` / `extractMethod` model `serde_json::from_slice::<RpcRequest>`:
  the body bytes are parsed as one JSON document and the top-level `method`
  string member is extracted.  Any parse failure (invalid JSON, trailing
  garbage, missing / duplicated / non-string `method`, non-object top level)
  yields `none`, matching serde's error on the derived struct.
* HTTP requests and responses carry a verb, URI, header list and body string.
  Header values are either raw strings (as received on the wire) or a bearer
  token freshly minted from a `JwtSecret` at a given instant, which models
  `reth_rpc_layer::secret_to_bearer_header` at its interface.
* The hyper client and the inner jsonrpsee service are oracles
  `HttpRequest → Except String HttpResponse`; `ProxyService.call` returns a
  `CallTrace` recording the branch taken, every HTTP request issued through
  the client, every call delegated to the inner service, and the value the
  middleware future resolves to (`tokio::spawn` of the builder request is
  modelled as an issued request whose response is discarded).
-/

/-- JSON values, the data model of `serde_json`. Numerals are kept as text. -/
inductive Json where
  | null
  | bool (b : Bool)
  | num (text : String)
  | str (s : String)
  | arr (elems : List Json)
  | obj (members : List (String × Json))

/-- JSON insignificant whitespace. -/
def isWs (c : Char) : Bool :=
  c = ' ' || c = '\n' || c = '\t' || c = '\r'

/-- Drop leading JSON whitespace. -/
def skipWs : List Char → List Char
  | [] => []
  | c :: rest => if isWs c then skipWs rest else c :: rest

/-- Decoding of a character following a backslash inside a JSON string
(restricted to the escapes that matter here; quote and backslash map to
themselves). -/
def unescape (e : Char) : Char :=
  if e = 'n' then '\n' else if e = 't' then '\t' else if e = 'r' then '\r' else e

/-- Parse the remainder of a JSON string literal after the opening quote,
returning the decoded content and the input after the closing quote. -/
def parseStringBody : List Char → Option (String × List Char)
  | [] => none
  | c :: rest =>
    if c = '"' then some ("", rest)
    else if c = '\\' then
      match rest with
      | [] => none
      | e :: rest2 =>
        match parseStringBody rest2 with
        | some (s, r) => some (String.mk (unescape e :: s.toList), r)
        | none => none
    else
      match parseStringBody rest with
      | some (s, r) => some (String.mk (c :: s.toList), r)
      | none => none

/-- Characters that may occur in a JSON numeral. -/
def isNumChar (c : Char) : Bool :=
  c.isDigit || c = '-' || c = '+' || c = '.' || c = 'e' || c = 'E'

/-- Split off the longest leading run of numeral characters. -/
def takeNum : List Char → List Char × List Char
  | [] => ([], [])
  | c :: rest =>
    if isNumChar c then
      let p := takeNum rest
      (c :: p.1, p.2)
    else ([], c :: rest)

mutual

/-- Parse one JSON value; `fuel` bounds the nesting depth (each recursive call
consumes at least one character first, so `length + 1` fuel always suffices). -/
def parseValue : Nat → List Char → Option (Json × List Char)
  | 0, _ => none
  | fuel + 1, input =>
    match skipWs input with
    | [] => none
    | c :: rest =>
      if c = '"' then
        match parseStringBody rest with
        | some (s, r) => some (Json.str s, r)
        | none => none
      else if c = '{' then
        match skipWs rest with
        | '}' :: r2 => some (Json.obj [], r2)
        | _ =>
          match parseMembers fuel rest with
          | some (ms, r) => some (Json.obj ms, r)
          | none => none
      else if c = '[' then
        match skipWs rest with
        | ']' :: r2 => some (Json.arr [], r2)
        | _ =>
          match parseElements fuel rest with
          | some (es, r) => some (Json.arr es, r)
          | none => none
      else if c = 't' then
        if rest.take 3 = ['r', 'u', 'e'] then some (Json.bool true, rest.drop 3) else none
      else if c = 'f' then
        if rest.take 4 = ['a', 'l', 's', 'e'] then some (Json.bool false, rest.drop 4) else none
      else if c = 'n' then
        if rest.take 3 = ['u', 'l', 'l'] then some (Json.null, rest.drop 3) else none
      else if isNumChar c then
        let p := takeNum (c :: rest)
        some (Json.num (String.mk p.1), p.2)
      else none

/-- Parse the members of a JSON object after the opening brace (nonempty case),
including the closing brace. -/
def parseMembers : Nat → List Char → Option (List (String × Json) × List Char)
  | 0, _ => none
  | fuel + 1, input =>
    match skipWs input with
    | '"' :: rest =>
      match parseStringBody rest with
      | none => none
      | some (key, r1) =>
        match skipWs r1 with
        | ':' :: r2 =>
          match parseValue fuel r2 with
          | none => none
          | some (v, r3) =>
            match skipWs r3 with
            | ',' :: r4 =>
              match parseMembers fuel r4 with
              | some (ms, r5) => some ((key, v) :: ms, r5)
              | none => none
            | '}' :: r4 => some ([(key, v)], r4)
            | _ => none
        | _ => none
    | _ => none

/-- Parse the elements of a JSON array after the opening bracket (nonempty
case), including the closing bracket. -/
def parseElements : Nat → List Char → Option (List Json × List Char)
  | 0, _ => none
  | fuel + 1, input =>
    match parseValue fuel input with
    | none => none
    | some (v, r1) =>
      match skipWs r1 with
      | ',' :: r2 =>
        match parseElements fuel r2 with
        | some (es, r3) => some (v :: es, r3)
        | none => none
      | ']' :: r2 => some ([v], r2)
      | _ => none

end

/-- Parse a whole body as one JSON document, rejecting trailing content. -/
def parseJson (body : String) : Option Json :=
  let cs := body.toList
  match parseValue (cs.length + 1) cs with
  | some (v, rest) => if skipWs rest = [] then some v else none
  | none => none

/-- Model of `serde_json::from_slice::<RpcRequest>` for
`struct RpcRequest { method: &str }` (proxy.rs lines 84-97): the body must
be a JSON object with exactly one `method` member whose value is a string
(serde rejects a duplicated field); other members are ignored. -/
def extractMethod (body : String) : Option String :=
  match parseJson body with
  | some (Json.obj members) =>
    match members.filter (fun m => decide (m.1 = "method")) with
    | [(_, Json.str s)] => some s
    | _ => none
  | _ => none

/-- A 32-byte symmetric JWT secret, abstracted to its identity. -/
structure JwtSecret where
  key : Nat
deriving DecidableEq

/-- A header value: either raw wire bytes, or a bearer token freshly minted
from `secret` at instant `iat` (the interface of
`reth_rpc_layer::secret_to_bearer_header`). -/
inductive HeaderValue where
  | raw (value : String)
  | bearer (secret : JwtSecret) (iat : Nat)
deriving DecidableEq

/-- One entry of an `http::HeaderMap` (names already lowercased, as hyper
normalizes them). -/
structure Header where
  name : String
  value : HeaderValue
deriving DecidableEq

/-- The `http::header::AUTHORIZATION` name. -/
def AUTHORIZATION : String := "authorization"

/-- A request URI, split into its origin part and its path. -/
structure Uri where
  origin : String
  path : String
deriving DecidableEq

/-- An `http::Request` with the body already materialized to bytes
(`http_helpers::read_body` with a `u32::MAX` cap). -/
structure HttpRequest where
  verb : String
  uri : Uri
  headers : List Header
  body : String
deriving DecidableEq

/-- An `http::Response` with the body materialized to bytes. -/
structure HttpResponse where
  status : Nat
  headers : List Header
  body : String
deriving DecidableEq

/-- Value of the first header named `k`. -/
def getHeader : List Header → String → Option HeaderValue
  | [], _ => none
  | h :: t, k => if h.name = k then some h.value else getHeader t k

/-- Number of entries named `k`. -/
def countHeader : List Header → String → Nat
  | [], _ => 0
  | h :: t, k => (if h.name = k then 1 else 0) + countHeader t k

/-- Drop every entry named `k`. -/
def removeHeader : List Header → String → List Header
  | [], _ => []
  | h :: t, k => if h.name = k then removeHeader t k else h :: removeHeader t k

/-- `http::HeaderMap::insert`: every existing entry for the name is replaced
by the single new entry. -/
def insertHeader (hs : List Header) (k : String) (v : HeaderValue) : List Header :=
  removeHeader hs k ++ [{ name := k, value := v }]

/-- Model of `reth_rpc_layer::secret_to_bearer_header`: a fresh HS256 JWT with
`iat = now`, rendered as a bearer header value. -/
def secret_to_bearer_header (secret : JwtSecret) (now : Nat) : HeaderValue :=
  HeaderValue.bearer secret now

/-- An HTTP peer (the hyper client, or the inner jsonrpsee service) as an
oracle from the issued request to its outcome. -/
def Net : Type := HttpRequest → Except String HttpResponse

/-- `proxy.rs` `forward_request`: rewrite the URI to the target, insert a
freshly minted bearer header when a secret is supplied, issue the request,
and return the upstream outcome unchanged (`resp.map(HttpBody::new)` is the
identity on status, headers and bytes).  The pair records the request as
actually sent together with the outcome. -/
def forward_request (net : Net) (req : HttpRequest) (uri : Uri)
    (auth : Option JwtSecret) (now : Nat) :
    HttpRequest × Except String HttpResponse :=
  let sent : HttpRequest :=
    { req with
      uri := uri
      headers :=
        match auth with
        | some a => insertHeader req.headers AUTHORIZATION (secret_to_bearer_header a now)
        | none => req.headers }
  (sent, net sent)

/-- `MULTIPLEX_METHODS` from `proxy.rs` line 14. -/
def MULTIPLEX_METHODS : List String := ["engine_", "eth_sendRawTransaction", "miner_"]

/-- `FORWARD_REQUEST` from `proxy.rs` line 15. -/
def FORWARD_REQUEST : List String := ["engine_", "eth_sendRawTransaction", "miner_"]

/-- `str::starts_with` on strings. -/
def strStartsWith (s p : String) : Bool :=
  List.isPrefixOf p.data s.data

/-- The configuration of `ProxyService` (`proxy.rs` lines 48-55); the hyper
client and the inner service are passed separately as oracles. -/
structure ProxyService where
  l2_uri : Uri
  l2_auth : JwtSecret
  builder_uri : Uri
deriving DecidableEq

/-- The branch of `ProxyService::call` taken for a request. -/
inductive Route where
  | healthz
  | broadcast
  | multiplex
  | direct
  | parseFailed
deriving DecidableEq

/-- The error the middleware future resolves to, mirroring the `BoxError`
cases of `ProxyService::call`. -/
inductive ServiceError where
  | parseFailure
  | transport (message : String)
  | inner (message : String)
deriving DecidableEq

/-- Everything observable about one `ProxyService::call`: the branch taken,
the HTTP requests issued through the client (in program order: the spawned
builder request first on the broadcast branch), the requests delegated to the
inner service, and the resolved value. -/
structure CallTrace where
  route : Route
  sends : List HttpRequest
  innerCalls : List HttpRequest
  result : Except ServiceError HttpResponse

/-- The `/healthz` short-circuit response: `Response::new` has status 200 and
no headers. -/
def healthzResponse : HttpResponse := { status := 200, headers := [], body := "OK" }

/-- `ProxyService::call` (`proxy.rs` lines 73-133).  The spawned builder
request is recorded as a send whose outcome is discarded (`let _ = ...`). -/
def ProxyService.call (s : ProxyService) (net : Net) (inner : Net) (now : Nat)
    (req : HttpRequest) : CallTrace :=
  if req.uri.path = "/healthz" then
    { route := Route.healthz, sends := [], innerCalls := [],
      result := Except.ok healthzResponse }
  else
    match extractMethod req.body with
    | none =>
      { route := Route.parseFailed, sends := [], innerCalls := [],
        result := Except.error ServiceError.parseFailure }
    | some method =>
      if MULTIPLEX_METHODS.any (fun m => strStartsWith method m) then
        if FORWARD_REQUEST.any (fun m => strStartsWith method m) then
          let builderSend := forward_request net req s.builder_uri none now
          let l2Send := forward_request net req s.l2_uri none now
          { route := Route.broadcast
            sends := [builderSend.1, l2Send.1]
            innerCalls := []
            result := l2Send.2.mapError ServiceError.transport }
        else
          { route := Route.multiplex, sends := [], innerCalls := [req],
            result := (inner req).mapError ServiceError.inner }
      else
        let l2Send := forward_request net req s.l2_uri (some s.l2_auth) now
        { route := Route.direct, sends := [l2Send.1], innerCalls := [],
          result := l2Send.2.mapError ServiceError.transport }

/-- The routing decision as a pure function of the request path and body,
mirroring the branch structure of `ProxyService::call`. -/
def classify (path : String) (body : String) : Route :=
  if path = "/healthz" then Route.healthz
  else
    match extractMethod body with
    | none => Route.parseFailed
    | some method =>
      if MULTIPLEX_METHODS.any (fun m => strStartsWith method m) then
        if FORWARD_REQUEST.any (fun m => strStartsWith method m) then Route.broadcast
        else Route.multiplex
      else Route.direct

/-- The request the direct branch sends to L2: the inbound request with the
URI rewritten to the L2 auth URI and the Authorization header replaced by a
bearer token freshly minted from the L2 secret. -/
def directSent (s : ProxyService) (now : Nat) (r : HttpRequest) : HttpRequest :=
  { r with
    uri := s.l2_uri
    headers := insertHeader r.headers AUTHORIZATION (HeaderValue.bearer s.l2_auth now) }

/-- Concrete L2 secret for witnesses and counterexamples. -/
def exSecret : JwtSecret := { key := 7 }

/-- Concrete L2 auth URI. -/
def exL2Uri : Uri := { origin := "http://l2.example:8551", path := "/" }

/-- Concrete builder URI. -/
def exBuilderUri : Uri := { origin := "http://builder.example:8551", path := "/" }

/-- Concrete proxy configuration. -/
def exService : ProxyService :=
  { l2_uri := exL2Uri, l2_auth := exSecret, builder_uri := exBuilderUri }

/-- Concrete network oracle: every upstream answers 200, echoing the request
body and recording which origin was contacted in a response header. -/
def exNet : Net := fun q =>
  Except.ok
    { status := 200
      headers := [{ name := "x-upstream", value := HeaderValue.raw q.uri.origin }]
      body := q.body }

/-- Concrete inner service oracle. -/
def exInner : Net := fun q =>
  Except.ok { status := 200, headers := [], body := "inner:" ++ q.body }

/-- Concrete network oracle for transport failure. -/
def failNet : Net := fun _ => Except.error ("connection refused")

/-- Concrete JSON-RPC body with an `engine_`-prefixed method. -/
def engineBody : String := "\x7b\"method\":\"engine_method\"\x7d"

/-- Concrete `eth_sendRawTransaction` body. -/
def sendRawBody : String :=
  "\x7b\"method\":\"eth_sendRawTransaction\",\"params\":[\"0x01\"]\x7d"

/-- Concrete direct-route body (`eth_blockNumber`). -/
def blockNumberBody : String :=
  "\x7b\"jsonrpc\":\"2.0\",\"id\":1,\"method\":\"eth_blockNumber\",\"params\":[]\x7d"

/-- Concrete body that is not valid JSON. -/
def notJsonBody : String := "this is not json"

/-- Concrete inbound bearer token as the driver would send it. -/
def inboundAuthValue : HeaderValue := HeaderValue.raw ("Bearer inbound-driver-token")

/-- The inbound JSON-RPC path of the proxy listener. -/
def rpcPath : Uri := { origin := "http://rollup-boost.example:8081", path := "/" }

/-- Concrete inbound request on the JSON-RPC path. -/
def mkRequest (hs : List Header) (body : String) : HttpRequest :=
  { verb := "POST", uri := rpcPath, headers := hs, body := body }

/-- Concrete inbound Authorization header entry. -/
def authHeaderEntry : Header := { name := AUTHORIZATION, value := inboundAuthValue }

/-- Concrete content-type header entry. -/
def contentTypeEntry : Header :=
  { name := "content-type", value := HeaderValue.raw ("application/json") }

/-- Concrete broadcast-route request carrying the driver's bearer token. -/
def c2Request : HttpRequest := mkRequest [authHeaderEntry, contentTypeEntry] sendRawBody

/-- Concrete direct-route request with no Authorization header at all. -/
def c3Request : HttpRequest := mkRequest [] blockNumberBody

/-- Concrete direct-route request carrying the driver's bearer token. -/
def directRequest : HttpRequest := mkRequest [authHeaderEntry, contentTypeEntry] blockNumberBody

/-- Concrete `engine_`-method request. -/
def engineRequest : HttpRequest := mkRequest [authHeaderEntry] engineBody

/-- Concrete request whose body is not JSON. -/
def notJsonRequest : HttpRequest := mkRequest [] notJsonBody

/-- Concrete `/healthz` request. -/
def healthzRequest : HttpRequest :=
  { verb := "GET", uri := { origin := rpcPath.origin, path := "/healthz" },
    headers := [], body := "" }

/-- A second network oracle that agrees with `exNet` on requests to the L2
URI but fails everywhere else (the builder is down). -/
def altNet : Net := fun q =>
  if q.uri = exL2Uri then exNet q else Except.error ("builder offline")

/-- The two prefix tables of `proxy.rs` are identical, so the two
`starts_with` scans always agree. -/
theorem forward_any_eq_multiplex_any (m : String) :
    FORWARD_REQUEST.any (fun p => strStartsWith m p) =
      MULTIPLEX_METHODS.any (fun p => strStartsWith m p) := rfl

/-- Characterization of the `/healthz` short-circuit branch. -/
theorem call_eq_healthz (s : ProxyService) (net inner : Net) (now : Nat)
    (r : HttpRequest) (h : r.uri.path = "/healthz") :
    s.call net inner now r =
      { route := Route.healthz, sends := [], innerCalls := [],
        result := Except.ok healthzResponse } := by
  simp [ProxyService.call, h]

/-- Characterization of the body-parse-failure branch. -/
theorem call_eq_parseFailed (s : ProxyService) (net inner : Net) (now : Nat)
    (r : HttpRequest) (h1 : r.uri.path ≠ "/healthz")
    (h2 : extractMethod r.body = none) :
    s.call net inner now r =
      { route := Route.parseFailed, sends := [], innerCalls := [],
        result := Except.error ServiceError.parseFailure } := by
  simp [ProxyService.call, h1, h2]

/-- Characterization of the broadcast branch: a method matching the prefix
tables is sent to the builder and to L2 with headers untouched, and the L2
outcome is the result. -/
theorem call_eq_broadcast (s : ProxyService) (net inner : Net) (now : Nat)
    (r : HttpRequest) (m : String) (h1 : r.uri.path ≠ "/healthz")
    (h2 : extractMethod r.body = some m)
    (h3 : MULTIPLEX_METHODS.any (fun p => strStartsWith m p) = true) :
    s.call net inner now r =
      { route := Route.broadcast
        sends := [{ r with uri := s.builder_uri }, { r with uri := s.l2_uri }]
        innerCalls := []
        result := (net { r with uri := s.l2_uri }).mapError ServiceError.transport } := by
  simp [ProxyService.call, h1, h2, h3, forward_any_eq_multiplex_any, forward_request]

/-- Characterization of the direct branch: a method matching no prefix is
sent to L2 only, with a freshly minted bearer header. -/
theorem call_eq_direct (s : ProxyService) (net inner : Net) (now : Nat)
    (r : HttpRequest) (m : String) (h1 : r.uri.path ≠ "/healthz")
    (h2 : extractMethod r.body = some m)
    (h3 : MULTIPLEX_METHODS.any (fun p => strStartsWith m p) = false) :
    s.call net inner now r =
      { route := Route.direct
        sends := [directSent s now r]
        innerCalls := []
        result := (net (directSent s now r)).mapError ServiceError.transport } := by
  simp [ProxyService.call, h1, h2, h3, forward_request, secret_to_bearer_header,
    directSent]

/-- The branch taken by `call` is exactly `classify` of the path and body. -/
theorem call_route (s : ProxyService) (net inner : Net) (now : Nat)
    (r : HttpRequest) :
    (s.call net inner now r).route = classify r.uri.path r.body := by
  by_cases h1 : r.uri.path = "/healthz"
  · simp [ProxyService.call, classify, h1]
  · cases h2 : extractMethod r.body with
    | none => simp [ProxyService.call, classify, h1, h2]
    | some m =>
      by_cases h3 : MULTIPLEX_METHODS.any (fun p => strStartsWith m p) = true
      · simp [ProxyService.call, classify, h1, h2, h3, forward_any_eq_multiplex_any]
      · simp [ProxyService.call, classify, h1, h2, h3, forward_any_eq_multiplex_any]

/-- After an insert, looking up the inserted name finds the new value. -/
theorem getHeader_insertHeader_self (hs : List Header) (k : String) (v : HeaderValue) :
    getHeader (insertHeader hs k v) k = some v := by
  induction hs with
  | nil => simp [getHeader, insertHeader, removeHeader]
  | cons h t ih =>
    by_cases hk : h.name = k
    · simpa [insertHeader, removeHeader, hk] using ih
    · simpa [getHeader, insertHeader, removeHeader, hk] using ih

/-- After an insert, lookups of every other name are unchanged. -/
theorem getHeader_insertHeader_ne (hs : List Header) (k k2 : String)
    (v : HeaderValue) (hne : k2 ≠ k) :
    getHeader (insertHeader hs k v) k2 = getHeader hs k2 := by
  have hkne : k ≠ k2 := Ne.symm hne
  induction hs with
  | nil => simp [getHeader, insertHeader, removeHeader, hkne]
  | cons h t ih =>
    by_cases hk : h.name = k
    · simpa [getHeader, insertHeader, removeHeader, hk, hkne] using ih
    · by_cases hk2 : h.name = k2
      · simp [getHeader, insertHeader, removeHeader, hk, hk2, hne]
      · simpa [getHeader, insertHeader, removeHeader, hk, hk2] using ih

/-- `countHeader` distributes over append. -/
theorem countHeader_append (l1 l2 : List Header) (k : String) :
    countHeader (l1 ++ l2) k = countHeader l1 k + countHeader l2 k := by
  induction l1 with
  | nil => simp [countHeader]
  | cons h t ih =>
    by_cases hk : h.name = k <;> simp [countHeader, hk, ih]
    omega

/-- Removing a name leaves no entry with that name. -/
theorem countHeader_removeHeader (hs : List Header) (k : String) :
    countHeader (removeHeader hs k) k = 0 := by
  induction hs with
  | nil => simp [countHeader, removeHeader]
  | cons h t ih => by_cases hk : h.name = k <;> simp [countHeader, removeHeader, hk, ih]

/-- After an insert, exactly one entry carries the inserted name: the insert
replaces, it does not add a second entry. -/
theorem countHeader_insertHeader_self (hs : List Header) (k : String) (v : HeaderValue) :
    countHeader (insertHeader hs k v) k = 1 := by
  simp [insertHeader, countHeader_append, countHeader_removeHeader, countHeader]

/-- A method starting with one of the two broadcast prefixes matches the
`MULTIPLEX_METHODS` scan. -/
theorem multiplex_any_of_broadcast_prefix (m : String)
    (h : strStartsWith m ("eth_sendRawTransaction") = true ∨
         strStartsWith m ("miner_") = true) :
    MULTIPLEX_METHODS.any (fun p => strStartsWith m p) = true := by
  rcases h with h | h <;> simp [MULTIPLEX_METHODS, h]

/-- C1: the spec routes every `engine_`-prefixed method to the local Engine
API multiplexer (the inner service).  The code lists `engine_` in
`FORWARD_REQUEST` as well, so an `engine_` request is broadcast over HTTP to
the builder and to L2, the inner service receives nothing, and on no input
whatsoever does `call` take the multiplex branch. -/
theorem C1_engine_broadcast_not_multiplexed :
    (exService.call exNet exInner 0 engineRequest).route = Route.broadcast ∧
    (exService.call exNet exInner 0 engineRequest).innerCalls = [] ∧
    (exService.call exNet exInner 0 engineRequest).sends.map (fun q => q.uri)
      = [exBuilderUri, exL2Uri] ∧
    ∀ (s : ProxyService) (net inner : Net) (now : Nat) (r : HttpRequest),
      (s.call net inner now r).route ∈
        [Route.healthz, Route.broadcast, Route.direct, Route.parseFailed] := by
  refine ⟨rfl, rfl, rfl, ?_⟩
  intro s net inner now r
  rw [call_route]
  unfold classify
  by_cases h1 : r.uri.path = "/healthz"
  · simp [h1]
  · cases h2 : extractMethod r.body with
    | none => simp [h1, h2]
    | some m =>
      by_cases h3 : MULTIPLEX_METHODS.any (fun p => strStartsWith m p) = true
      · simp [h1, h2, h3, forward_any_eq_multiplex_any]
      · simp [h1, h2, h3, forward_any_eq_multiplex_any]

/-- C2 counterexample: an `eth_sendRawTransaction` request carrying the
driver's bearer token is broadcast, and both outgoing requests (builder and
L2) still carry exactly that inbound token. -/
theorem C2_counterexample_inbound_token_forwarded :
    (exService.call exNet exInner 0 c2Request).route = Route.broadcast ∧
    (exService.call exNet exInner 0 c2Request).sends.map
        (fun q => getHeader q.headers AUTHORIZATION)
      = [some inboundAuthValue, some inboundAuthValue] := ⟨rfl, rfl⟩

/-- C2 (amended): only the DIRECT route replaces the inbound Authorization
header with a token freshly minted from the L2 secret; on the BROADCAST
route both outgoing requests carry the inbound headers — including any
inbound Authorization bearer token — unchanged, with no fresh token. -/
theorem C2_amended_direct_replaces_broadcast_forwards
    (s : ProxyService) (net inner : Net) (now : Nat) (r : HttpRequest) :
    ((s.call net inner now r).route = Route.direct →
      ∀ q ∈ (s.call net inner now r).sends,
        getHeader q.headers AUTHORIZATION = some (HeaderValue.bearer s.l2_auth now) ∧
        countHeader q.headers AUTHORIZATION = 1) ∧
    ((s.call net inner now r).route = Route.broadcast →
      ∀ q ∈ (s.call net inner now r).sends, q.headers = r.headers) := by
  by_cases h1 : r.uri.path = "/healthz"
  · simp [call_eq_healthz s net inner now r h1]
  · cases h2 : extractMethod r.body with
    | none => simp [call_eq_parseFailed s net inner now r h1 h2]
    | some m =>
      by_cases h3 : MULTIPLEX_METHODS.any (fun p => strStartsWith m p) = true
      · simp [call_eq_broadcast s net inner now r m h1 h2 h3]
      · rw [Bool.not_eq_true] at h3
        simp [call_eq_direct s net inner now r m h1 h2 h3, directSent,
          getHeader_insertHeader_self, countHeader_insertHeader_self]

/-- C2 amended witness: on the concrete direct request the single outgoing
request carries the freshly minted bearer, exactly once. -/
theorem C2_amended_witness :
    getHeader (directSent exService 3 directRequest).headers AUTHORIZATION
        = some (HeaderValue.bearer exSecret 3) ∧
    countHeader (directSent exService 3 directRequest).headers AUTHORIZATION = 1 :=
  (C2_amended_direct_replaces_broadcast_forwards exService exNet exInner 3
      directRequest).1 (by rfl) (directSent exService 3 directRequest) (by decide)

/-- C3 counterexample: a request with no Authorization header at all is not
answered with 401 — it is classified and forwarded to L2, which is contacted
and whose 200 response is returned. -/
theorem C3_counterexample_unauthenticated_forwarded :
    (exService.call exNet exInner 0 c3Request).route = Route.direct ∧
    ((exService.call exNet exInner 0 c3Request).sends.map (fun q => q.uri))
      = [exL2Uri] ∧
    (exService.call exNet exInner 0 c3Request).result =
      Except.ok
        { status := 200
          headers := [{ name := "x-upstream",
                        value := HeaderValue.raw ("http://l2.example:8551") }]
          body := blockNumberBody } := ⟨rfl, rfl, rfl⟩

/-- C3 (amended): there is no inbound authentication: the route taken never
depends on the Authorization header (adding, replacing or stripping it
changes nothing), and away from `/healthz` every successful response comes
from the network or from the inner service — the proxy never synthesizes a
401 of its own. -/
theorem C3_amended_no_inbound_auth_check
    (s : ProxyService) (net inner : Net) (now : Nat) (r : HttpRequest)
    (v : HeaderValue) :
    (s.call net inner now
        { r with headers := insertHeader r.headers AUTHORIZATION v }).route
      = (s.call net inner now r).route ∧
    (s.call net inner now
        { r with headers := removeHeader r.headers AUTHORIZATION }).route
      = (s.call net inner now r).route ∧
    (∀ resp, (s.call net inner now r).result = Except.ok resp →
      (r.uri.path = "/healthz" ∧ resp = healthzResponse) ∨
      (∃ q, q ∈ (s.call net inner now r).sends ∧ net q = Except.ok resp) ∨
      (∃ q, q ∈ (s.call net inner now r).innerCalls ∧ inner q = Except.ok resp)) := by
  refine ⟨by rw [call_route, call_route], by rw [call_route, call_route], ?_⟩
  intro resp hresp
  by_cases h1 : r.uri.path = "/healthz"
  · rw [call_eq_healthz s net inner now r h1] at hresp
    exact Or.inl ⟨h1, by injection hresp.symm⟩
  · cases h2 : extractMethod r.body with
    | none =>
      rw [call_eq_parseFailed s net inner now r h1 h2] at hresp
      exact absurd hresp (by simp)
    | some m =>
      by_cases h3 : MULTIPLEX_METHODS.any (fun p => strStartsWith m p) = true
      · rw [call_eq_broadcast s net inner now r m h1 h2 h3] at hresp ⊢
        refine Or.inr (Or.inl ⟨{ r with uri := s.l2_uri }, by simp, ?_⟩)
        cases hq : net { r with uri := s.l2_uri } with
        | ok resp2 => simp [hq, Except.mapError] at hresp; rw [hresp]
        | error e => simp [hq, Except.mapError] at hresp
      · rw [Bool.not_eq_true] at h3
        rw [call_eq_direct s net inner now r m h1 h2 h3] at hresp ⊢
        refine Or.inr (Or.inl ⟨directSent s now r, by simp, ?_⟩)
        cases hq : net (directSent s now r) with
        | ok resp2 => simp [hq, Except.mapError] at hresp; rw [hresp]
        | error e => simp [hq, Except.mapError] at hresp

/-- C3 amended witness: adding the driver's token to the tokenless request
does not change the route taken. -/
theorem C3_amended_witness :
    (exService.call exNet exInner 0
        { c3Request with
          headers := insertHeader c3Request.headers AUTHORIZATION inboundAuthValue }).route
      = (exService.call exNet exInner 0 c3Request).route :=
  (C3_amended_no_inbound_auth_check exService exNet exInner 0 c3Request
      inboundAuthValue).1

/-- C4: a method starting with `eth_sendRawTransaction` or `miner_` produces
exactly one outbound request to the builder and one to L2, both with the
inbound body; the inner service is not called; whenever L2 answers, the
client result is exactly L2's response; and the builder outcome cannot
influence the result — any oracle agreeing with `net` on the L2 request
yields the same result (the spawned builder response is discarded). -/
theorem C4_broadcast_fanout_l2_authoritative
    (s : ProxyService) (net net2 inner : Net) (now : Nat) (r : HttpRequest)
    (m : String) (hpath : r.uri.path ≠ "/healthz")
    (hm : extractMethod r.body = some m)
    (hpre : strStartsWith m ("eth_sendRawTransaction") = true ∨
            strStartsWith m ("miner_") = true) :
    (s.call net inner now r).sends.map (fun q => (q.uri, q.body))
        = [(s.builder_uri, r.body), (s.l2_uri, r.body)] ∧
    (s.call net inner now r).innerCalls = [] ∧
    (∀ resp, net { r with uri := s.l2_uri } = Except.ok resp →
      (s.call net inner now r).result = Except.ok resp) ∧
    (net2 { r with uri := s.l2_uri } = net { r with uri := s.l2_uri } →
      (s.call net2 inner now r).result = (s.call net inner now r).result) := by
  have h3 := multiplex_any_of_broadcast_prefix m hpre
  rw [call_eq_broadcast s net inner now r m hpath hm h3,
    call_eq_broadcast s net2 inner now r m hpath hm h3]
  refine ⟨rfl, rfl, ?_, ?_⟩
  · intro resp h
    simp [h, Except.mapError]
  · intro h
    rw [h]

/-- C4 witness: on the concrete `eth_sendRawTransaction` request the fan-out,
the L2-verbatim result and the builder-independence all hold, with a second
oracle whose builder leg fails. -/
theorem C4_witness :
    (exService.call exNet exInner 0 c2Request).sends.map (fun q => (q.uri, q.body))
        = [(exBuilderUri, sendRawBody), (exL2Uri, sendRawBody)] ∧
    (exService.call exNet exInner 0 c2Request).innerCalls = [] ∧
    (exService.call exNet exInner 0 c2Request).result =
      Except.ok
        { status := 200
          headers := [{ name := "x-upstream",
                        value := HeaderValue.raw ("http://l2.example:8551") }]
          body := sendRawBody } ∧
    (exService.call altNet exInner 0 c2Request).result
      = (exService.call exNet exInner 0 c2Request).result :=
  let T := C4_broadcast_fanout_l2_authoritative exService exNet altNet exInner 0
    c2Request ("eth_sendRawTransaction") (by decide) (by rfl) (Or.inl (by decide))
  ⟨T.1, T.2.1, T.2.2.1 _ (by rfl), T.2.2.2 (by rfl)⟩

/-- C5: a method matching none of the classification prefixes is forwarded
exactly once, to the L2 URI, with a bearer token freshly minted at send time
from the L2 secret, and L2's response is handed back exactly as produced —
status, headers and body unmodified. -/
theorem C5_direct_forward_fresh_jwt_verbatim_response
    (s : ProxyService) (net inner : Net) (now : Nat) (r : HttpRequest)
    (m : String) (hpath : r.uri.path ≠ "/healthz")
    (hm : extractMethod r.body = some m)
    (hnone : MULTIPLEX_METHODS.any (fun p => strStartsWith m p) = false) :
    (s.call net inner now r).sends = [directSent s now r] ∧
    (s.call net inner now r).innerCalls = [] ∧
    (directSent s now r).uri = s.l2_uri ∧
    getHeader (directSent s now r).headers AUTHORIZATION
      = some (secret_to_bearer_header s.l2_auth now) ∧
    (∀ resp, net (directSent s now r) = Except.ok resp →
      (s.call net inner now r).result = Except.ok resp) := by
  rw [call_eq_direct s net inner now r m hpath hm hnone]
  refine ⟨rfl, rfl, rfl, ?_, ?_⟩
  · simp [directSent, secret_to_bearer_header, getHeader_insertHeader_self]
  · intro resp h
    simp [h, Except.mapError]

/-- C5 witness: the concrete `eth_blockNumber` request goes to L2 exactly
once with the minted bearer, and L2's response comes back unchanged. -/
theorem C5_witness :
    (exService.call exNet exInner 9 c3Request).sends = [directSent exService 9 c3Request] ∧
    (directSent exService 9 c3Request).uri = exL2Uri ∧
    getHeader (directSent exService 9 c3Request).headers AUTHORIZATION
      = some (secret_to_bearer_header exSecret 9) ∧
    (exService.call exNet exInner 9 c3Request).result =
      Except.ok
        { status := 200
          headers := [{ name := "x-upstream",
                        value := HeaderValue.raw ("http://l2.example:8551") }]
          body := blockNumberBody } :=
  let T := C5_direct_forward_fresh_jwt_verbatim_response exService exNet exInner 9
    c3Request ("eth_blockNumber") (by decide) (by rfl) (by decide)
  ⟨T.1, T.2.2.1, T.2.2.2.1, T.2.2.2.2 _ (by rfl)⟩

/-- C6 counterexample: when the L2 transport fails on a direct route, the
middleware future resolves to the boxed transport error itself; no JSON-RPC
response — in particular none with code -32603 and upstream data — is
produced for the client. -/
theorem C6_counterexample_transport_error_raw :
    (exService.call failNet exInner 0 c3Request).result
      = Except.error (ServiceError.transport ("connection refused")) := rfl

/-- C6 (amended): a transport failure on the L2 hop of a DIRECT or BROADCAST
route propagates to the server layer as the boxed transport error returned
by the middleware; the proxy synthesizes no JSON-RPC internal-error
response. -/
theorem C6_amended_l2_transport_error_propagates
    (s : ProxyService) (net inner : Net) (now : Nat) (r : HttpRequest)
    (m e : String) (hpath : r.uri.path ≠ "/healthz")
    (hm : extractMethod r.body = some m) :
    (MULTIPLEX_METHODS.any (fun p => strStartsWith m p) = false →
      net (directSent s now r) = Except.error e →
      (s.call net inner now r).result = Except.error (ServiceError.transport e)) ∧
    (MULTIPLEX_METHODS.any (fun p => strStartsWith m p) = true →
      net { r with uri := s.l2_uri } = Except.error e →
      (s.call net inner now r).result = Except.error (ServiceError.transport e)) := by
  constructor
  · intro h3 hnet
    rw [call_eq_direct s net inner now r m hpath hm h3]
    simp [hnet, Except.mapError]
  · intro h3 hnet
    rw [call_eq_broadcast s net inner now r m hpath hm h3]
    simp [hnet, Except.mapError]

/-- C6 amended witness: the concrete broadcast request with L2 down resolves
to the boxed transport error. -/
theorem C6_amended_witness :
    (exService.call failNet exInner 2 c2Request).result
      = Except.error (ServiceError.transport ("connection refused")) :=
  (C6_amended_l2_transport_error_propagates exService failNet exInner 2 c2Request
      ("eth_sendRawTransaction") ("connection refused") (by decide) (by rfl)).2
    (by decide) (by rfl)

/-- C7 counterexample: a body that is not valid JSON yields the propagated
parse error from the middleware future — no HTTP 400 response is built —
and no upstream or inner request is made. -/
theorem C7_counterexample_invalid_json_service_error :
    exService.call exNet exInner 0 notJsonRequest =
      { route := Route.parseFailed, sends := [], innerCalls := [],
        result := Except.error ServiceError.parseFailure } := rfl

/-- C7 (amended): on any JSON-RPC path, a body that does not parse to an
object with a `method` field makes the middleware resolve to the propagated
parse error — not an HTTP 400 response — and contact no upstream and no
inner service. -/
theorem C7_amended_parse_error_no_upstream
    (s : ProxyService) (net inner : Net) (now : Nat) (r : HttpRequest)
    (hpath : r.uri.path ≠ "/healthz") (hm : extractMethod r.body = none) :
    s.call net inner now r =
      { route := Route.parseFailed, sends := [], innerCalls := [],
        result := Except.error ServiceError.parseFailure } :=
  call_eq_parseFailed s net inner now r hpath hm

/-- C7 amended witness: the not-JSON body at a later instant. -/
theorem C7_amended_witness :
    exService.call exNet exInner 4 notJsonRequest =
      { route := Route.parseFailed, sends := [], innerCalls := [],
        result := Except.error ServiceError.parseFailure } :=
  C7_amended_parse_error_no_upstream exService exNet exInner 4 notJsonRequest
    (by decide) (by rfl)

/-- C8: every request whose path is `/healthz` — whatever its method, verb,
headers or tokens, and whatever the upstreams would do — is answered 200
with body OK, with no upstream send and no inner call. -/
theorem C8_healthz_200_no_upstream
    (s : ProxyService) (net inner : Net) (now : Nat) (r : HttpRequest)
    (h : r.uri.path = "/healthz") :
    s.call net inner now r =
      { route := Route.healthz, sends := [], innerCalls := [],
        result := Except.ok { status := 200, headers := [], body := "OK" } } :=
  call_eq_healthz s net inner now r h

/-- C8 witness: the concrete unauthenticated GET on `/healthz`. -/
theorem C8_witness :
    exService.call exNet exInner 0 healthzRequest =
      { route := Route.healthz, sends := [], innerCalls := [],
        result := Except.ok { status := 200, headers := [], body := "OK" } } :=
  C8_healthz_200_no_upstream exService exNet exInner 0 healthzRequest (by rfl)

/-- C9: routing is total and deterministic: two calls with the same path and
body take the same route whatever the configuration, oracles, clock or
headers; the route always equals the pure classification of path and body;
and the classification depends on the body only through the parsed `method`
field. -/
theorem C9_routing_total_deterministic
    (s1 s2 : ProxyService) (net1 net2 inner1 inner2 : Net) (now1 now2 : Nat)
    (r1 r2 : HttpRequest) (hpath : r1.uri.path = r2.uri.path)
    (hbody : r1.body = r2.body) :
    (s1.call net1 inner1 now1 r1).route = (s2.call net2 inner2 now2 r2).route ∧
    (s1.call net1 inner1 now1 r1).route = classify r1.uri.path r1.body ∧
    (∀ p b1 b2, extractMethod b1 = extractMethod b2 →
      classify p b1 = classify p b2) := by
  refine ⟨?_, call_route s1 net1 inner1 now1 r1, ?_⟩
  · rw [call_route, call_route, hpath, hbody]
  · intro p b1 b2 h
    simp only [classify, h]

/-- C9 witness: same path and body, different headers, clock and network
oracle — same route. -/
theorem C9_witness :
    (exService.call exNet exInner 0 c3Request).route
      = (exService.call failNet exInner 7 directRequest).route :=
  (C9_routing_total_deterministic exService exService exNet failNet exInner exInner
      0 7 c3Request directRequest (by rfl) (by rfl)).1

/-- C10: forwarding rewrites only the URI and — when a secret is supplied —
the Authorization header, which is replaced (exactly one entry remains, the
freshly minted bearer), never duplicated; the verb, body and every other
header reach the upstream unchanged, and the upstream outcome is returned
exactly as produced. -/
theorem C10_forward_request_frame
    (net : Net) (r : HttpRequest) (uri : Uri) (auth : Option JwtSecret)
    (now : Nat) :
    (forward_request net r uri auth now).1.verb = r.verb ∧
    (forward_request net r uri auth now).1.body = r.body ∧
    (forward_request net r uri auth now).1.uri = uri ∧
    (forward_request net r uri auth now).2
      = net (forward_request net r uri auth now).1 ∧
    (auth = none → (forward_request net r uri auth now).1.headers = r.headers) ∧
    (∀ a, auth = some a →
      getHeader (forward_request net r uri auth now).1.headers AUTHORIZATION
          = some (HeaderValue.bearer a now) ∧
      countHeader (forward_request net r uri auth now).1.headers AUTHORIZATION = 1 ∧
      ∀ k2, k2 ≠ AUTHORIZATION →
        getHeader (forward_request net r uri auth now).1.headers k2
          = getHeader r.headers k2) := by
  cases auth with
  | none =>
    exact ⟨rfl, rfl, rfl, rfl, fun _ => rfl, fun a h => by cases h⟩
  | some a =>
    refine ⟨rfl, rfl, rfl, rfl, ?_, ?_⟩
    · intro h
      cases h
    intro a2 h
    injection h with h2
    subst h2
    refine ⟨?_, ?_, ?_⟩
    · simp [forward_request, secret_to_bearer_header, getHeader_insertHeader_self]
    · simp [forward_request, countHeader_insertHeader_self]
    · intro k2 hk2
      simp only [forward_request]
      exact getHeader_insertHeader_ne r.headers AUTHORIZATION k2 _ hk2

/-- C10 witness: on the concrete request with a content-type header and an
inbound token, forwarding with the L2 secret keeps body and content-type,
replaces the token with the minted bearer exactly once, and returns the
upstream outcome unchanged. -/
theorem C10_witness :
    (forward_request exNet directRequest exL2Uri (some exSecret) 5).1.body
        = directRequest.body ∧
    (forward_request exNet directRequest exL2Uri (some exSecret) 5).2
        = exNet (forward_request exNet directRequest exL2Uri (some exSecret) 5).1 ∧
    getHeader (forward_request exNet directRequest exL2Uri (some exSecret) 5).1.headers
        AUTHORIZATION = some (HeaderValue.bearer exSecret 5) ∧
    countHeader (forward_request exNet directRequest exL2Uri (some exSecret) 5).1.headers
        AUTHORIZATION = 1 ∧
    getHeader (forward_request exNet directRequest exL2Uri (some exSecret) 5).1.headers
        ("content-type") = getHeader directRequest.headers ("content-type") :=
  let T := C10_forward_request_frame exNet directRequest exL2Uri (some exSecret) 5
  ⟨T.2.1, T.2.2.2.1, (T.2.2.2.2.2 exSecret rfl).1, (T.2.2.2.2.2 exSecret rfl).2.1,
    (T.2.2.2.2.2 exSecret rfl).2.2 ("content-type") (by decide)⟩
